import Mathlib

/-!
Verification of the `Approve` instruction builder from
`src/token/src/approve.rs` (litesvm token helpers).

The builder accumulates the parameters of an SPL-token `approve`
instruction, resolves the effective authority (single owner vs multisig),
assembles one transaction, signs it with the fee payer and the authority
signers, and submits it to the runtime.

Shallow embedding conventions:
- `Pubkey`, `Blockhash` and the opaque error payloads are `Nat`.
- A `Keypair` is identified by the public key it exposes via `pubkey()`.
- The mutable runtime handle `&mut LiteSVM` held by the Rust builder
  becomes an explicit `Svm` state value threaded through `send`.
- External collaborators (the instruction encoder `spl_token::instruction::approve`,
  the multisig signer resolution `get_multisig_signers`, the solana-sdk
  `Transaction` assembly/signing, and the runtime submission) are modelled
  from the spec, as recorded on each definition.
-/

abbrev Pubkey := Nat

abbrev Blockhash := Nat

/-- Opaque payload of an instruction-encoding failure (the spec's `EncodingError`). -/
abbrev EncodingError := Nat

/-- Opaque payload of a runtime rejection (the spec's `SubmissionError`). -/
abbrev SubmissionError := Nat

/-- A signing identity; `pubkey` mirrors Rust `Keypair::pubkey()`. -/
structure Keypair where
  pubkey : Pubkey
  deriving DecidableEq, Repr

/-- Modelled from the spec: an encoded instruction is an opaque value produced
by the external instruction-encoding collaborator. -/
structure Instruction where
  data : Nat
  deriving DecidableEq, Repr

/-- Modelled from the spec: the well-known default token program identity,
the `TOKEN_ID` constant the builder falls back to. -/
def TOKEN_ID : Pubkey := 0

/-- Modelled from the spec: a transaction is one list of instructions, an
optional fee payer, the freshness reference it was signed over, and the
ordered list of signatures gathered so far; each signature records the
signer identity and the freshness reference it signed over. -/
structure Transaction where
  instructions : List Instruction
  feePayer : Option Pubkey
  recentBlockhash : Option Blockhash
  signatures : List (Pubkey × Blockhash)
  deriving DecidableEq, Repr

/-- Modelled from the spec: `Transaction::new_with_payer` builds an unsigned
transaction holding the given instructions and fee payer. -/
def Transaction.new_with_payer (instructions : List Instruction)
    (payer : Option Pubkey) : Transaction :=
  { instructions := instructions
    feePayer := payer
    recentBlockhash := none
    signatures := [] }

/-- Modelled from the spec: `Transaction::partial_sign` appends, in order, a
signature by each given keypair over the supplied freshness reference, and
records that reference on the transaction. -/
def Transaction.partial_sign (tx : Transaction) (keypairs : List Keypair)
    (block_hash : Blockhash) : Transaction :=
  { tx with
    recentBlockhash := some block_hash
    signatures := tx.signatures ++ keypairs.map (fun k => (k.pubkey, block_hash)) }

/-- Modelled from the spec: the runtime collaborator (`LiteSVM`).  `judge` is
its all-or-nothing verdict on a submitted transaction; `submitted` is the
list of accepted transactions; `fetchCount` counts freshness-reference
requests and `attempts` counts submission attempts, so that an unchanged
state certifies that neither primitive was invoked. -/
structure Svm where
  blockhash : Blockhash
  judge : Transaction → Except SubmissionError Unit
  submitted : List Transaction
  fetchCount : Nat
  attempts : Nat

/-- Modelled from the spec: `latest_blockhash` returns the current freshness
reference; the count of requests is tracked in the state. -/
def Svm.latest_blockhash (svm : Svm) : Blockhash × Svm :=
  (svm.blockhash, { svm with fetchCount := svm.fetchCount + 1 })

/-- Modelled from the spec: `send_transaction` submits a transaction; the
runtime either accepts it (recording it) or rejects it with a
`SubmissionError`, all-or-nothing. -/
def Svm.send_transaction (svm : Svm) (tx : Transaction) :
    Except SubmissionError Unit × Svm :=
  match svm.judge tx with
  | Except.error e => (Except.error e, { svm with attempts := svm.attempts + 1 })
  | Except.ok _ =>
      (Except.ok (),
        { svm with
          attempts := svm.attempts + 1
          submitted := svm.submitted ++ [tx] })

/-- Modelled from the spec: the two external operations `send` consumes that
can shape its result — `encode` is `spl_token::instruction::approve`
(arguments: program id, source, delegate, authority, signer identities,
amount), and `resolveSigners` is `get_multisig_signers` (given the claimed
authority and the candidate signer identities, returns the signer list to
embed in the instruction; its exact algorithm is owned by the collaborator). -/
structure Collab where
  encode : Pubkey → Pubkey → Pubkey → Pubkey → List Pubkey → Nat → Except EncodingError Instruction
  resolveSigners : Pubkey → List Pubkey → List Pubkey

/-- The builder state of `Approve` (fields as in the Rust struct; the
`svm: &mut LiteSVM` handle is passed to `send` explicitly instead). -/
structure Approve where
  payer : Keypair
  delegate : Pubkey
  source : Pubkey
  amount : Nat
  signers : List Keypair
  owner : Option Pubkey
  token_program_id : Option Pubkey
  deriving DecidableEq, Repr

/-- `Approve::new`: stores the required fields, defaults the signer list to
the singleton payer, and leaves `owner` and `token_program_id` unset. -/
def Approve.new (payer : Keypair) (delegate : Pubkey) (source : Pubkey)
    (amount : Nat) : Approve :=
  { payer := payer
    delegate := delegate
    source := source
    token_program_id := none
    amount := amount
    owner := none
    signers := [payer] }

/-- `Approve::token_program_id` (named `with_program_id` here because the
field projection already carries the Rust name): sets the token program id. -/
def Approve.with_program_id (b : Approve) (program_id : Pubkey) : Approve :=
  { b with token_program_id := some program_id }

/-- `Approve::owner` (named `as_single_owner` here because the field
projection already carries the Rust name): sets the owner of the account
with a single owner and replaces the signer list by that owner. -/
def Approve.as_single_owner (b : Approve) (owner : Keypair) : Approve :=
  { b with owner := some owner.pubkey, signers := [owner] }

/-- `Approve::multisig` (named `as_multisig` for symmetry with the other
setters): sets the owner of the account with a multisig owner and replaces
the signer list by the supplied signers, verbatim. -/
def Approve.as_multisig (b : Approve) (multisig : Pubkey)
    (signers : List Keypair) : Approve :=
  { b with owner := some multisig, signers := signers }

/-- The send-time program id: the override when set, else `TOKEN_ID`
(the `unwrap_or` on the first line of `send`). -/
def Approve.resolved_program_id (b : Approve) : Pubkey :=
  b.token_program_id.getD TOKEN_ID

/-- The send-time authority: the configured owner when set, else the payer
identity (`self.owner.unwrap_or(payer_pk)` in `send`). -/
def Approve.authority (b : Approve) : Pubkey :=
  b.owner.getD b.payer.pubkey

/-- The public identities of the authority signers, in stored order
(`self.signers.pubkeys()` in `send`). -/
def Approve.signing_keys (b : Approve) : List Pubkey :=
  b.signers.map Keypair.pubkey

/-- `send` can surface exactly the two error kinds of the spec, each an
opaque pass-through from a collaborator. -/
inductive SendError where
  | encoding (e : EncodingError)
  | submission (e : SubmissionError)
  deriving DecidableEq, Repr

/-- `Approve::send`: resolves program id, authority and signer identities,
asks the collaborator to encode the instruction (propagating its failure
unchanged), fetches the freshness reference, assembles one transaction with
the payer as fee payer, signs with the payer and then with the authority
signers over the same reference, and submits. -/
def Approve.send (b : Approve) (c : Collab) (svm : Svm) :
    Except SendError Unit × Svm :=
  let payer_pk := b.payer.pubkey
  let token_program_id := b.resolved_program_id
  let authority := b.authority
  let signing_keys := b.signing_keys
  let signer_keys := c.resolveSigners authority signing_keys
  match c.encode token_program_id b.source b.delegate authority signer_keys b.amount with
  | Except.error e => (Except.error (SendError.encoding e), svm)
  | Except.ok ix =>
      let fetched := Svm.latest_blockhash svm
      let block_hash := fetched.1
      let svm1 := fetched.2
      let tx0 := Transaction.new_with_payer [ix] (some payer_pk)
      let tx1 := tx0.partial_sign [b.payer] block_hash
      let tx2 := tx1.partial_sign b.signers block_hash
      match Svm.send_transaction svm1 tx2 with
      | (Except.error e, svm2) => (Except.error (SendError.submission e), svm2)
      | (Except.ok _, svm2) => (Except.ok (), svm2)

/-- One builder-configuration call, for stating properties over every
sequence of configuration calls after construction. -/
inductive ConfigStep where
  | setProgramId (program_id : Pubkey)
  | setOwner (owner : Keypair)
  | setMultisig (multisig : Pubkey) (signers : List Keypair)
  deriving DecidableEq, Repr

/-- Apply one configuration call to a builder. -/
def applyStep (b : Approve) : ConfigStep → Approve
  | ConfigStep.setProgramId pid => b.with_program_id pid
  | ConfigStep.setOwner o => b.as_single_owner o
  | ConfigStep.setMultisig m s => b.as_multisig m s

/-- Apply a chained sequence of configuration calls. -/
def applySteps (b : Approve) (steps : List ConfigStep) : Approve :=
  steps.foldl applyStep b

/-! ### Builder-state claims -/

/-- C1: mode mutual exclusivity with last-setter-wins — configuring single
owner then multisig leaves authority `M` and signers exactly `S`, and
configuring multisig then single owner leaves authority `X` and signers
exactly `[X]`; neither direction merges the earlier signer set. -/
theorem C1_mode_exclusivity (b : Approve) (X : Keypair) (M : Pubkey)
    (S : List Keypair) :
    ((b.as_single_owner X).as_multisig M S).authority = M ∧
    ((b.as_single_owner X).as_multisig M S).signers = S ∧
    ((b.as_multisig M S).as_single_owner X).authority = X.pubkey ∧
    ((b.as_multisig M S).as_single_owner X).signers = [X] :=
  ⟨rfl, rfl, rfl, rfl⟩

/-- C2 counterexample: the claim that `authority_signers` is non-empty at
send time for every sequence of construction and configuration calls fails
at the concrete sequence that configures a multisig with an empty signer
list — the resulting builder reaches send with an empty signer list. -/
theorem C2_counterexample :
    (applySteps (Approve.new ⟨1⟩ 2 3 4) [ConfigStep.setMultisig 5 []]).signers = [] :=
  rfl

theorem signers_nonempty_of_steps (steps : List ConfigStep) (b : Approve)
    (hb : b.signers ≠ [])
    (h : ∀ m sg, ConfigStep.setMultisig m sg ∈ steps → sg ≠ []) :
    (applySteps b steps).signers ≠ [] := by
  induction steps generalizing b with
  | nil => exact hb
  | cons st rest ih =>
      have hrest : ∀ m sg, ConfigStep.setMultisig m sg ∈ rest → sg ≠ [] :=
        fun m sg hm => h m sg (List.mem_cons_of_mem _ hm)
      have hstep : (applyStep b st).signers ≠ [] := by
        cases st with
        | setProgramId pid => simpa [applyStep, Approve.with_program_id] using hb
        | setOwner o => simp [applyStep, Approve.as_single_owner]
        | setMultisig m sg =>
            simpa [applyStep, Approve.as_multisig] using h m sg (List.mem_cons_self _ _)
      exact ih (applyStep b st) hstep hrest

/-- C2 (amended): provided every multisig configuration call in the sequence
supplies a non-empty signer list, the builder reaches send with a non-empty
`signers` collection. -/
theorem C2_signers_nonempty (p : Keypair) (d s : Pubkey) (a : Nat)
    (steps : List ConfigStep)
    (h : ∀ m sg, ConfigStep.setMultisig m sg ∈ steps → sg ≠ []) :
    (applySteps (Approve.new p d s a) steps).signers ≠ [] :=
  signers_nonempty_of_steps steps (Approve.new p d s a) (by simp [Approve.new]) h

theorem C2_witness :
    (applySteps (Approve.new ⟨1⟩ 2 3 4)
      [ConfigStep.setOwner ⟨6⟩, ConfigStep.setMultisig 7 [⟨8⟩]]).signers ≠ [] :=
  C2_signers_nonempty ⟨1⟩ 2 3 4 _ (by
    intro m sg hm
    simp only [List.mem_cons, List.not_mem_nil, or_false] at hm
    rcases hm with hm | hm
    · cases hm
    · cases hm
      simp)

/-- C3: a freshly constructed builder with no further configuration resolves
authority to the payer identity and signers to the singleton payer. -/
theorem C3_default_authority (p : Keypair) (d s : Pubkey) (a : Nat) :
    (Approve.new p d s a).authority = p.pubkey ∧
    (Approve.new p d s a).signers = [p] :=
  ⟨rfl, rfl⟩

/-- C9: frame — every configuration call leaves payer, delegate, source and
amount unchanged; setting the program id touches neither owner nor signers;
setting single owner or multisig leaves the program id unchanged. -/
theorem C9_setter_frames (b : Approve) (pid : Pubkey) (o : Keypair)
    (m : Pubkey) (sg : List Keypair) :
    ((b.with_program_id pid).payer = b.payer ∧
      (b.with_program_id pid).delegate = b.delegate ∧
      (b.with_program_id pid).source = b.source ∧
      (b.with_program_id pid).amount = b.amount ∧
      (b.with_program_id pid).owner = b.owner ∧
      (b.with_program_id pid).signers = b.signers) ∧
    ((b.as_single_owner o).payer = b.payer ∧
      (b.as_single_owner o).delegate = b.delegate ∧
      (b.as_single_owner o).source = b.source ∧
      (b.as_single_owner o).amount = b.amount ∧
      (b.as_single_owner o).token_program_id = b.token_program_id) ∧
    ((b.as_multisig m sg).payer = b.payer ∧
      (b.as_multisig m sg).delegate = b.delegate ∧
      (b.as_multisig m sg).source = b.source ∧
      (b.as_multisig m sg).amount = b.amount ∧
      (b.as_multisig m sg).token_program_id = b.token_program_id) :=
  ⟨⟨rfl, rfl, rfl, rfl, rfl, rfl⟩, ⟨rfl, rfl, rfl, rfl, rfl⟩,
    ⟨rfl, rfl, rfl, rfl, rfl⟩⟩

/-- C10: same-setter overwrite — repeating a configuration method leaves the
builder exactly as if only the final call had been made, so the send-time
authority state depends only on the last authority-setting call. -/
theorem C10_overwrite (b : Approve) (A B : Keypair) (M1 M2 : Pubkey)
    (S1 S2 : List Keypair) :
    (b.as_single_owner A).as_single_owner B = b.as_single_owner B ∧
    (b.as_multisig M1 S1).as_multisig M2 S2 = b.as_multisig M2 S2 ∧
    ((b.as_single_owner A).as_single_owner B).authority = B.pubkey ∧
    ((b.as_single_owner A).as_single_owner B).signers = [B] ∧
    ((b.as_multisig M1 S1).as_multisig M2 S2).authority = M2 ∧
    ((b.as_multisig M1 S1).as_multisig M2 S2).signers = S2 :=
  ⟨rfl, rfl, rfl, rfl, rfl, rfl⟩

/-! ### Send-pipeline claims -/

theorem send_ok_submitted (b : Approve) (c : Collab) (svm svm' : Svm)
    (h : b.send c svm = (Except.ok (), svm')) :
    ∃ ix,
      c.encode b.resolved_program_id b.source b.delegate b.authority
          (c.resolveSigners b.authority b.signing_keys) b.amount = Except.ok ix ∧
      svm'.submitted = svm.submitted ++
        [{ instructions := [ix]
           feePayer := some b.payer.pubkey
           recentBlockhash := some svm.blockhash
           signatures := (b.payer.pubkey, svm.blockhash) ::
             b.signers.map (fun k => (k.pubkey, svm.blockhash)) }] := by
  simp only [Approve.send] at h
  cases henc : c.encode b.resolved_program_id b.source b.delegate b.authority
      (c.resolveSigners b.authority b.signing_keys) b.amount with
  | error e =>
      rw [henc] at h
      exact absurd h (by simp)
  | ok ix =>
      rw [henc] at h
      refine ⟨ix, rfl, ?_⟩
      simp only [Svm.latest_blockhash, Svm.send_transaction,
        Transaction.new_with_payer, Transaction.partial_sign,
        List.nil_append, List.singleton_append, List.map_cons] at h
      split at h
      · simp at h
      · rename_i heq
        split at heq
        · simp at heq
        · simp only [Prod.mk.injEq] at heq
          cases h
          rw [← heq.2]
          simp

/-- A collaborator whose encoder accepts every combination, for witnesses. -/
def cOk : Collab :=
  { encode := fun _ _ _ _ _ _ => Except.ok ⟨0⟩
    resolveSigners := fun _ s => s }

/-- A collaborator whose encoder rejects every combination with payload 7,
for witnesses. -/
def cErr : Collab :=
  { encode := fun _ _ _ _ _ _ => Except.error 7
    resolveSigners := fun _ s => s }

/-- A runtime state that accepts every submitted transaction, for witnesses. -/
def svmOk : Svm :=
  { blockhash := 10
    judge := fun _ => Except.ok ()
    submitted := []
    fetchCount := 0
    attempts := 0 }

/-- C5: a successful send submits exactly one transaction holding exactly one
instruction, with the payer as fee payer; the payer signs first and then
every authority signer signs, all over the same freshness reference, and the
transaction carries all of those signatures already when it is submitted. -/
theorem C5_assembly_and_signing (b : Approve) (c : Collab) (svm svm' : Svm)
    (h : b.send c svm = (Except.ok (), svm')) :
    ∃ ix,
      svm'.submitted = svm.submitted ++
        [{ instructions := [ix]
           feePayer := some b.payer.pubkey
           recentBlockhash := some svm.blockhash
           signatures := (b.payer.pubkey, svm.blockhash) ::
             b.signers.map (fun k => (k.pubkey, svm.blockhash)) }] := by
  obtain ⟨ix, _, hsub⟩ := send_ok_submitted b c svm svm' h
  exact ⟨ix, hsub⟩

theorem C5_witness :
    ∃ ix,
      (((Approve.new ⟨1⟩ 2 3 4).send cOk svmOk).2).submitted = svmOk.submitted ++
        [{ instructions := [ix]
           feePayer := some (Approve.new ⟨1⟩ 2 3 4).payer.pubkey
           recentBlockhash := some svmOk.blockhash
           signatures := ((Approve.new ⟨1⟩ 2 3 4).payer.pubkey, svmOk.blockhash) ::
             (Approve.new ⟨1⟩ 2 3 4).signers.map
               (fun k => (k.pubkey, svmOk.blockhash)) }] :=
  C5_assembly_and_signing (Approve.new ⟨1⟩ 2 3 4) cOk svmOk _ rfl

/-- C4: multisig configuration stores the signer list verbatim — owner
becomes `M`, the stored signers are exactly `S` in the caller-supplied
order, the derived public identities are `S.map pubkey` in that order, that
very list is handed to the signer-resolution collaborator feeding the
encoded instruction, and on a successful send the submitted transaction is
signed by exactly the members of `S`, in order, after the payer. -/
theorem C4_multisig_verbatim (b : Approve) (M : Pubkey) (S : List Keypair)
    (c : Collab) (svm svm' : Svm)
    (h : (b.as_multisig M S).send c svm = (Except.ok (), svm')) :
    (b.as_multisig M S).owner = some M ∧
    (b.as_multisig M S).signers = S ∧
    (b.as_multisig M S).authority = M ∧
    (b.as_multisig M S).signing_keys = S.map Keypair.pubkey ∧
    ∃ ix,
      c.encode (b.as_multisig M S).resolved_program_id b.source b.delegate M
          (c.resolveSigners M (S.map Keypair.pubkey)) b.amount = Except.ok ix ∧
      svm'.submitted = svm.submitted ++
        [{ instructions := [ix]
           feePayer := some b.payer.pubkey
           recentBlockhash := some svm.blockhash
           signatures := (b.payer.pubkey, svm.blockhash) ::
             S.map (fun k => (k.pubkey, svm.blockhash)) }] := by
  refine ⟨rfl, rfl, rfl, rfl, ?_⟩
  exact send_ok_submitted (b.as_multisig M S) c svm svm' h

theorem C4_witness :
    ((Approve.new ⟨1⟩ 2 3 4).as_multisig 5 [⟨6⟩, ⟨7⟩]).owner = some 5 ∧
    ((Approve.new ⟨1⟩ 2 3 4).as_multisig 5 [⟨6⟩, ⟨7⟩]).signers =
      ([⟨6⟩, ⟨7⟩] : List Keypair) ∧
    ((Approve.new ⟨1⟩ 2 3 4).as_multisig 5 [⟨6⟩, ⟨7⟩]).authority = 5 ∧
    ((Approve.new ⟨1⟩ 2 3 4).as_multisig 5 [⟨6⟩, ⟨7⟩]).signing_keys =
      ([⟨6⟩, ⟨7⟩] : List Keypair).map Keypair.pubkey ∧
    ∃ ix,
      cOk.encode ((Approve.new ⟨1⟩ 2 3 4).as_multisig 5 [⟨6⟩, ⟨7⟩]).resolved_program_id
          (Approve.new ⟨1⟩ 2 3 4).source (Approve.new ⟨1⟩ 2 3 4).delegate 5
          (cOk.resolveSigners 5 (([⟨6⟩, ⟨7⟩] : List Keypair).map Keypair.pubkey))
          (Approve.new ⟨1⟩ 2 3 4).amount = Except.ok ix ∧
      ((((Approve.new ⟨1⟩ 2 3 4).as_multisig 5 [⟨6⟩, ⟨7⟩]).send cOk svmOk).2).submitted =
        svmOk.submitted ++
        [{ instructions := [ix]
           feePayer := some (Approve.new ⟨1⟩ 2 3 4).payer.pubkey
           recentBlockhash := some svmOk.blockhash
           signatures := ((Approve.new ⟨1⟩ 2 3 4).payer.pubkey, svmOk.blockhash) ::
             ([⟨6⟩, ⟨7⟩] : List Keypair).map (fun k => (k.pubkey, svmOk.blockhash)) }] :=
  C4_multisig_verbatim (Approve.new ⟨1⟩ 2 3 4) 5 [⟨6⟩, ⟨7⟩] cOk svmOk _ rfl

/-- C6: when the instruction-encoding collaborator rejects the combination,
send returns exactly that encoding error, unchanged, and the runtime state
is returned untouched — no freshness reference was requested, no submission
was attempted, no transaction was recorded. -/
theorem C6_encoding_failure_aborts (b : Approve) (c : Collab) (svm : Svm)
    (e : EncodingError)
    (h : c.encode b.resolved_program_id b.source b.delegate b.authority
        (c.resolveSigners b.authority b.signing_keys) b.amount = Except.error e) :
    b.send c svm = (Except.error (SendError.encoding e), svm) := by
  simp only [Approve.send, h]

theorem C6_witness :
    (Approve.new ⟨1⟩ 2 3 4).send cErr svmOk =
      (Except.error (SendError.encoding 7), svmOk) :=
  C6_encoding_failure_aborts (Approve.new ⟨1⟩ 2 3 4) cErr svmOk 7 rfl

/-- C7: construction and configuration never fail and validate nothing —
amount zero is stored as-is, an empty multisig signer list is accepted, and
such a degenerate builder still sends successfully whenever the external
encoder and runtime accept, i.e. all validation is the collaborators', at
send time. -/
theorem C7_no_validation (p : Keypair) (d s m : Pubkey) (c : Collab)
    (svm : Svm) (ix : Instruction)
    (henc : ∀ x1 x2 x3 x4 x5 x6, c.encode x1 x2 x3 x4 x5 x6 = Except.ok ix)
    (hjudge : ∀ tx, svm.judge tx = Except.ok ()) :
    (Approve.new p d s 0).amount = 0 ∧
    ((Approve.new p d s 0).as_multisig m []).signers = [] ∧
    ∃ svm', ((Approve.new p d s 0).as_multisig m []).send c svm =
      (Except.ok (), svm') := by
  refine ⟨rfl, rfl, ?_⟩
  simp only [Approve.send, Svm.latest_blockhash, Svm.send_transaction, henc, hjudge]
  exact ⟨_, rfl⟩

theorem C7_witness :
    (Approve.new ⟨1⟩ 2 3 0).amount = 0 ∧
    ((Approve.new ⟨1⟩ 2 3 0).as_multisig 5 []).signers = [] ∧
    ∃ svm', ((Approve.new ⟨1⟩ 2 3 0).as_multisig 5 []).send cOk svmOk =
      (Except.ok (), svm') :=
  C7_no_validation ⟨1⟩ 2 3 5 cOk svmOk ⟨0⟩ (fun _ _ _ _ _ _ => rfl) (fun _ => rfl)

/-- C8: the program identity used at send time is the one supplied to the
program-id setter when it was called, and otherwise the default constant
`TOKEN_ID`. -/
theorem C8_program_id (b : Approve) (pid : Pubkey)
    (h : b.token_program_id = none) :
    (b.with_program_id pid).resolved_program_id = pid ∧
    b.resolved_program_id = TOKEN_ID := by
  exact ⟨rfl, by simp [Approve.resolved_program_id, h]⟩

theorem C8_witness :
    ((Approve.new ⟨1⟩ 2 3 4).with_program_id 9).resolved_program_id = 9 ∧
    (Approve.new ⟨1⟩ 2 3 4).resolved_program_id = TOKEN_ID :=
  C8_program_id (Approve.new ⟨1⟩ 2 3 4) 9 rfl
